import Mathlib

/-!
Shallow embedding of `src/s5p-compress.py` (map06/s5p-tools).

The script loads a netCDF raster cube, selects a band (with an interactive
recovery loop on `KeyError`), resamples it along time with a mean
aggregation, optionally builds a simplified clipping mask from a shapefile,
and exports one raster file per resampled time index through a process pool.

Modelling conventions:
 * A raster cell is `Option ℚ` (`none` is a missing value / NaN).
 * Timestamps are natural numbers counting minutes; `%Y-%m-%d` formatting
   keeps only the day number `t / 1440`.
 * The time-resolution string accepted by `resample` is modelled by the
   duration (in minutes) it denotes, kept separately from the label used in
   file names; calendar-aware frequencies and pandas bin-origin handling are
   abstracted to epoch-anchored fixed-width buckets.
 * External geometry operations (`to_crs`, `simplify`, `rio.clip`) are
   parameters of the model: theorems hold for every behaviour of those
   library functions.
 * Side effects of `main` are recorded as an ordered event trace, and the
   process exit behaviour as an `Outcome`.
-/

namespace S5P

/-- A raster cell: `none` models NaN / missing data. -/
abbrev Cell := Option ℚ

/-- A 2-D raster slice, rows (y) of cells (x). -/
abbrev Grid := List (List Cell)

/-- Cell lookup; out-of-range reads are missing values. -/
def cellAt (g : Grid) (i j : Nat) : Cell := (g.getD i []).getD j none

/-- Mean over a list of cells, skipping missing values; an all-missing list
yields a missing value.  This is `mean(skipna=None)` of the source, i.e. the
library default for float data: skip NaN, and produce NaN (with a suppressed
runtime warning) when every value is NaN. -/
def cellMean (cs : List Cell) : Cell :=
  let vs := cs.filterMap id
  if vs.length = 0 then none else some (vs.sum / (vs.length : ℚ))

/-- Cell-wise mean of a list of grids on a fixed `rows × cols` shape:
the mean is taken across the list (the time axis) only. -/
def gridMean (rows cols : Nat) (gs : List Grid) : Grid :=
  (List.range rows).map fun i =>
    (List.range cols).map fun j => cellMean (gs.map fun g => cellAt g i j)

/-- One time step of a band: timestamp (minutes) and raster slice. -/
structure TimeStep where
  time : Nat
  grid : Grid
deriving DecidableEq, Repr

/-- A band: spatial coordinate axes plus the (time, y, x) data. -/
structure Band where
  xs : List ℚ
  ys : List ℚ
  steps : List TimeStep
deriving DecidableEq, Repr

/-- The bucket (left bin edge) a timestamp falls into, for a fixed
bucket width `freq` in minutes. -/
def bucketOf (freq t : Nat) : Nat := t / freq * freq

/-- All bucket left edges from `lo` to `hi` (both bucket-aligned):
`resample` produces the full regular range, including empty buckets. -/
def bucketStarts (freq lo hi : Nat) : List Nat :=
  (List.range ((hi - lo) / freq + 1)).map fun i => lo + i * freq

/-- Smallest timestamp of a non-empty step list. -/
def minTime (s0 : TimeStep) (rest : List TimeStep) : Nat :=
  rest.foldl (fun a s => min a s.time) s0.time

/-- Largest timestamp of a non-empty step list. -/
def maxTime (s0 : TimeStep) (rest : List TimeStep) : Nat :=
  rest.foldl (fun a s => max a s.time) s0.time

/-- The time dimension of `band.resample(time=freq).mean(dim='time',
skipna=None)`: one step per bucket between the first and last source
bucket, holding the cell-wise mean of the source slices in that bucket. -/
def resampleSteps (freq rows cols : Nat) : List TimeStep → List TimeStep
  | [] => []
  | s0 :: rest =>
    let lo := bucketOf freq (minTime s0 rest)
    let hi := bucketOf freq (maxTime s0 rest)
    (bucketStarts freq lo hi).map fun t =>
      ⟨t, gridMean rows cols
            (((s0 :: rest).filter fun s => bucketOf freq s.time == t).map TimeStep.grid)⟩

/-- `ds = band.resample(time=time_resolution).mean(dim='time', skipna=None)`
(line 42 of the source): the spatial axes are untouched, the time axis is
replaced by the bucket axis. -/
def resampleMean (freq : Nat) (b : Band) : Band :=
  ⟨b.xs, b.ys, resampleSteps freq b.ys.length b.xs.length b.steps⟩

/-! ### Output paths -/

/-- `EXPORT_DIR = 'compressed'` (line 108 of the source). -/
def EXPORT_DIR : String := "compressed"

/-- The calendar day of a timestamp: `strftime('%Y-%m-%d')` keeps only
day granularity, discarding the time of day. -/
def dayOf (t : Nat) : Nat := t / 1440

/-- The output path built on line 15:
`f"\x7bEXPORT_DIR\x7d/\x7bband_name\x7d/\x7btime_resolution\x7d__\x7bdate\x7d.tif"`,
kept as its four independent components; `renderPath` glues them into the
actual string. -/
structure ExportPath where
  dir : String
  band : String
  timeRes : String
  day : Nat
deriving DecidableEq, Repr

/-- The path of the raster exported for the step with timestamp `t`. -/
def exportPath (bandName timeRes : String) (t : Nat) : ExportPath :=
  ⟨EXPORT_DIR, bandName, timeRes, dayOf t⟩

/-- The concrete path string (the day number stands in for the
`%Y-%m-%d` rendering of the date, which is injective on days). -/
def renderPath (p : ExportPath) : String :=
  p.dir ++ "/" ++ p.band ++ "/" ++ p.timeRes ++ "__" ++ toString p.day ++ ".tif"

/-! ### Effects of `main` as an event trace -/

/-- Observable effects of a run, in program order. -/
inductive Event where
  | msg (s : String)
  | openCube (path : String)
  | listVars (names : List String)
  | promptBand (entered : String)
  | loadShp (path : String)
  | mkdir (d : String)
  | wrote (p : ExportPath) (content : Grid)
deriving DecidableEq, Repr

/-- `true` exactly on file-export events. -/
def Event.isWrote : Event → Bool
  | .wrote _ _ => true
  | _ => false

/-- Paths of the files written in a trace, in dispatch order. -/
def writePaths (evs : List Event) : List ExportPath :=
  evs.filterMap fun e =>
    match e with
    | .wrote p _ => some p
    | _ => none

/-- Contents of the files written in a trace, in dispatch order. -/
def writeContents (evs : List Event) : List Grid :=
  evs.filterMap fun e =>
    match e with
    | .wrote _ c => some c
    | _ => none

/-- How the process ended. -/
inductive Outcome where
  | normal
  | exitCode (n : Nat)
  | exception
deriving DecidableEq, Repr

/-! ### Band selector (lines 32-40) -/

/-- `DS[band_name]`: dataset indexing, `none` models the `KeyError`. -/
def lookupVar (cube : List (String × Band)) (name : String) : Option Band :=
  (cube.find? fun p => p.1 == name).map Prod.snd

/-- `DS.data_vars.keys()`. -/
def varNames (cube : List (String × Band)) : List String := cube.map Prod.fst

/-- What the `except KeyError` handler prints before reading a new name. -/
def promptEvents (cube : List (String × Band)) : List Event :=
  [Event.msg "The band name does not exist. The following bands were found:",
   Event.listVars (varNames cube)]

/-- The failure that ends the selection loop: `input()` raising at
end of interactive input (EOFError), which the loop does not catch. -/
inductive SelErr where
  | eof
deriving DecidableEq, Repr

/-- Result of the `while True` selection loop. -/
structure SelResult where
  events : List Event
  leftover : List String
  result : Except SelErr (String × Band)

/-- The selection loop of lines 32-40: try `DS[band_name]`; on `KeyError`
list the variables and read a corrected name from interactive input, then
retry; a read past the end of the queued input aborts (uncaught). -/
def selectBand (cube : List (String × Band)) : String → List String → SelResult
  | name, ins =>
    match lookupVar cube name with
    | some b => ⟨[], ins, Except.ok (name, b)⟩
    | none =>
      match ins with
      | [] => ⟨promptEvents cube, [], Except.error SelErr.eof⟩
      | i :: rest =>
        let r := selectBand cube i rest
        ⟨promptEvents cube ++ Event.promptBand i :: r.events, r.leftover, r.result⟩

/-! ### Mask builder (lines 44-55) -/

/-- Lines 48-49: `delta_x, delta_y = abs(ds.x[1]-ds.x[0]), abs(ds.y[1]-ds.y[0])`
then `resolution = min(delta_x, delta_y).values.item(0) / 2`.  Indexing the
second coordinate fails (`IndexError`) when an axis has fewer than two
entries, modelled by `none`. -/
def maskResolution (b : Band) : Option ℚ :=
  match b.xs, b.ys with
  | x0 :: x1 :: _, y0 :: y1 :: _ => some (min |x1 - x0| |y1 - y0| / 2)
  | _, _ => none

/-- Lines 48-53: compute the tolerance, then
`geopandas.read_file(shp).to_crs("EPSG:4326")` and
`shapefile.geometry.simplify(resolution)` applied to every geometry.
`toCrs4326` and `simplify` are the library's reprojection and
Douglas-Peucker simplification, taken as parameters. -/
def buildMask {G : Type} (toCrs4326 : List G → List G) (simplify : ℚ → G → G)
    (ds : Band) (geoms : List G) : Option (ℚ × List G) :=
  match maskResolution ds with
  | none => none
  | some r => some (r, (toCrs4326 geoms).map (simplify r))

/-! ### Exporter and `main` -/

/-- Default step used for out-of-range index reads (never reached on the
in-range indices `range(num_time)`). -/
def defaultStep : TimeStep := ⟨0, []⟩

/-- Lines 16-20 of `_export_raster`: clip when a shapefile was given,
otherwise write the slice as is.  `clip` is `rio.clip` with the mask
geometries (already in EPSG:4326), taken as a parameter. -/
def applyMask {G : Type} (clip : List G → Grid → Grid)
    (mask : Option (List G)) (g : Grid) : Grid :=
  match mask with
  | some gs => clip gs g
  | none => g

/-- `_export_raster(index, band_name, time_resolution, shapefile, ds)`
(lines 14-20): one file written, at the path built from the resampled
timestamp at `index`, holding the (optionally clipped) slice at `index`. -/
def exportRasterEvent {G : Type} (clip : List G → Grid → Grid)
    (bandName label : String) (mask : Option (List G)) (ds : Band)
    (index : Nat) : Event :=
  Event.wrote (exportPath bandName label (ds.steps.getD index defaultStep).time)
    (applyMask clip mask (ds.steps.getD index defaultStep).grid)

/-- The pool dispatch of lines 58-66: `_export_raster` applied to every
index of `range(num_time)` with `num_time = len(ds.time)`.  Completion is
unordered in the source; the trace keeps dispatch order, on which no claim
depends. -/
def exportEvents {G : Type} (clip : List G → Grid → Grid)
    (bandName label : String) (mask : Option (List G)) (ds : Band) : List Event :=
  (List.range ds.steps.length).map (exportRasterEvent clip bandName label mask ds)

/-- Command-line arguments of `main`.  The time resolution appears twice:
`timeResLabel` is the raw string interpolated into file names, `freq` the
bucket width in minutes that the pandas frequency parser derives from it
(parsing itself is library behaviour, not modelled). -/
structure Args where
  netcdf : String
  band : String
  timeResLabel : String
  freq : Nat
  shp : Option String
  chunkSize : Nat
  numWorkers : Nat

/-- The world `main` runs against: which paths exist, the variables of the
dataset behind the netCDF path, the geometries behind a shapefile path, and
the queued interactive input lines. -/
structure Env (G : Type) where
  fileExists : String → Bool
  cube : List (String × Band)
  shpContents : String → List G
  stdin : List String

/-- A finished run: its effect trace, how the process ended, and the mask
that was built (if any). -/
structure Run (G : Type) where
  events : List Event
  outcome : Outcome
  mask : Option (ℚ × List G)
deriving DecidableEq

/-- Line 57 and lines 58-66: `makedirs(..., exist_ok=True)` then the pool
loop over all time indices. -/
def finishRun {G : Type} (clip : List G → Grid → Grid) (pre : List Event)
    (bandName label : String) (mi : Option (ℚ × List G)) (ds : Band) : Run G :=
  ⟨pre ++ Event.mkdir (EXPORT_DIR ++ "/" ++ bandName)
      :: exportEvents clip bandName label (mi.map Prod.snd) ds,
   Outcome.normal, mi⟩

/-- `main(netcdf_file, time_resolution, shp, band_name, chunk_size,
num_workers)` (lines 23-69).  `chunk_size` only tunes lazy loading and
`num_workers` only sizes the pool; neither changes any observable of the
model. -/
def runMain {G : Type} (toCrs4326 : List G → List G) (simplify : ℚ → G → G)
    (clip : List G → Grid → Grid) (env : Env G) (args : Args) : Run G :=
  let ev0 : List Event := [Event.msg "\n"]
  if env.fileExists args.netcdf = false then
    ⟨ev0 ++ [Event.msg ("The file " ++ args.netcdf ++ " does not exist")],
     Outcome.exitCode 1, none⟩
  else
    let ev1 := ev0 ++ [Event.openCube args.netcdf]
    let sel := selectBand env.cube args.band env.stdin
    match sel.result with
    | Except.error _ => ⟨ev1 ++ sel.events, Outcome.exception, none⟩
    | Except.ok (bname, band) =>
      let ds := resampleMean args.freq band
      match args.shp with
      | none => finishRun clip (ev1 ++ sel.events) bname args.timeResLabel none ds
      | some shpPath =>
        let ev2 := ev1 ++ sel.events
            ++ [Event.msg "Loading and simplifying shapefile...\n"]
        match buildMask toCrs4326 simplify ds (env.shpContents shpPath) with
        | none => ⟨ev2, Outcome.exception, none⟩
        | some rg =>
          finishRun clip (ev2 ++ [Event.loadShp shpPath]) bname
            args.timeResLabel (some rg) ds

/-- `makedirs(path, exist_ok=True)` on a file system modelled as the list
of existing directories; the boolean reports success (always, thanks to
`exist_ok=True`). -/
def makedirsExistOk (dirs : List String) (d : String) : List String × Bool :=
  (if d ∈ dirs then dirs else dirs ++ [d], true)

/-! ### Concrete sample data used by witnesses and counterexamples -/

/-- A 2×2, two-step band: both steps fall in the same daily bucket, and
cell (0,1) is missing in both steps. -/
def bandW : Band :=
  ⟨[0, 1], [0, 1],
   [⟨0, [[some 1, none], [some 2, some 4]]⟩,
    ⟨60, [[some 3, none], [none, some 8]]⟩]⟩

/-- The daily mean of `bandW`: cell-wise mean skipping missing values. -/
def gridW : Grid := [[some 2, none], [some 2, some 6]]

/-- A 1×1 band with two steps 12 hours apart on the same calendar day. -/
def bandX : Band :=
  ⟨[0], [0], [⟨0, [[some 1]]⟩, ⟨720, [[some 3]]⟩]⟩

/-- An environment holding `bandX` under the variable name `aod`. -/
def envX : Env Unit :=
  ⟨fun _ => true, [("aod", bandX)], fun _ => [], []⟩

/-- A 12-hour resampling run on `envX` (no shapefile). -/
def argsX : Args := ⟨"in.nc", "aod", "12H", 720, none, 200, 4⟩

/-- Trivial reprojection on a degenerate geometry type, for runs where no
shapefile is involved. -/
def idCrs : List Unit → List Unit := fun gs => gs

/-- Trivial simplification on a degenerate geometry type. -/
def idSimplify : ℚ → Unit → Unit := fun _ g => g

/-- Trivial clipping on a degenerate geometry type. -/
def idClip : List Unit → Grid → Grid := fun _ g => g

/-- The concrete run of `main` on `envX`/`argsX`, with trivial geometry
operations (no shapefile is involved). -/
def runX : Run Unit := runMain idCrs idSimplify idClip envX argsX

/-- An environment in which no path exists. -/
def envMissing : Env Unit := ⟨fun _ => false, [], fun _ => [], []⟩

/-- A 1×1 band with two steps on distinct calendar days. -/
def bandD : Band :=
  ⟨[0], [0], [⟨0, [[some 1]]⟩, ⟨1440, [[some 3]]⟩]⟩

/-- An environment holding `bandD` under the variable name `aod`. -/
def envD : Env Unit :=
  ⟨fun _ => true, [("aod", bandD)], fun _ => [], []⟩

/-- A daily resampling run on `envD` (no shapefile). -/
def argsD : Args := ⟨"in.nc", "aod", "1D", 1440, none, 200, 4⟩

/-- The concrete run of `main` on `envD`/`argsD`. -/
def runD : Run Unit := runMain idCrs idSimplify idClip envD argsD

/-- An environment holding the 2×2 band `bandW` and a shapefile with two
geometries (modelled as the numbers 7 and 8). -/
def envShp : Env Nat :=
  ⟨fun _ => true, [("aod", bandW)], fun _ => [7, 8], []⟩

/-- A daily run on `envShp` that requests masking. -/
def argsShp : Args := ⟨"in.nc", "aod", "1D", 1440, some "mask.shp", 200, 4⟩

/-- Identity reprojection on numeric geometries. -/
def natCrs : List Nat → List Nat := fun gs => gs

/-- A simplification on numeric geometries that ignores the tolerance. -/
def natSimplify : ℚ → Nat → Nat := fun _ g => g + 1

/-- A clipping function on numeric geometries that ignores the mask. -/
def natClip : List Nat → Grid → Grid := fun _ g => g

/-- An environment holding the 1×1 band `bandX` (single-coordinate spatial
axes) together with a shapefile path. -/
def envShpBad : Env Unit :=
  ⟨fun _ => true, [("aod", bandX)], fun _ => [], []⟩

/-- A daily run on `envShpBad` that requests masking. -/
def argsShpBad : Args := ⟨"in.nc", "aod", "1D", 1440, some "mask.shp", 200, 4⟩

/-- An environment whose cube holds only `aod` and whose interactive input
is exhausted. -/
def envEof : Env Unit := ⟨fun _ => true, [("aod", bandX)], fun _ => [], []⟩

/-- Arguments requesting a band name (`bad`) absent from `envEof`. -/
def argsBad : Args := ⟨"in.nc", "bad", "1D", 1440, none, 200, 4⟩

/-! ## Helper lemmas -/

theorem cellMean_eq_none (cs : List Cell) (h : ∀ c ∈ cs, c = none) :
    cellMean cs = none := by
  have hnil : cs.filterMap id = [] := List.filterMap_eq_nil_iff.mpr h
  simp [cellMean, hnil]

theorem cellAt_gridMean (rows cols : Nat) (gs : List Grid) (i j : Nat)
    (hi : i < rows) (hj : j < cols) :
    cellAt (gridMean rows cols gs) i j = cellMean (gs.map fun g => cellAt g i j) := by
  unfold cellAt gridMean
  simp only [List.getD_eq_getElem?_getD, List.getElem?_map, List.getElem?_range hi,
    List.getElem?_range hj, Option.map_some', Option.getD_some]
  simp only [cellAt, List.getD_eq_getElem?_getD]

theorem mem_resampleSteps (freq rows cols : Nat) (steps : List TimeStep)
    (t : Nat) (g : Grid)
    (hmem : TimeStep.mk t g ∈ resampleSteps freq rows cols steps) :
    g = gridMean rows cols
        ((steps.filter fun s => bucketOf freq s.time == t).map TimeStep.grid) := by
  cases steps with
  | nil => simp [resampleSteps] at hmem
  | cons s0 rest =>
    simp only [resampleSteps, List.mem_map] at hmem
    obtain ⟨t', _ht', heq⟩ := hmem
    injection heq with ht hg
    subst ht
    exact hg.symm

theorem selectBand_found (cube : List (String × Band)) (name : String)
    (ins : List String) (b : Band) (h : lookupVar cube name = some b) :
    selectBand cube name ins = ⟨[], ins, Except.ok (name, b)⟩ := by
  cases ins <;> rw [selectBand, h]

theorem selectBand_miss_nil (cube : List (String × Band)) (name : String)
    (h : lookupVar cube name = none) :
    selectBand cube name [] = ⟨promptEvents cube, [], Except.error SelErr.eof⟩ := by
  rw [selectBand, h]

theorem selectBand_miss_cons (cube : List (String × Band)) (name i : String)
    (rest : List String) (h : lookupVar cube name = none) :
    selectBand cube name (i :: rest) =
      ⟨promptEvents cube ++ Event.promptBand i :: (selectBand cube i rest).events,
       (selectBand cube i rest).leftover, (selectBand cube i rest).result⟩ := by
  rw [selectBand, h]

theorem selectBand_events_shape (cube : List (String × Band)) :
    ∀ (ins : List String) (name : String) (e : Event),
      e ∈ (selectBand cube name ins).events →
      (∃ s, e = Event.msg s) ∨ (∃ ns, e = Event.listVars ns) ∨
      (∃ s, e = Event.promptBand s) := by
  intro ins
  induction ins with
  | nil =>
    intro name e he
    cases hl : lookupVar cube name with
    | some b => rw [selectBand_found cube name [] b hl] at he; exact absurd he (by simp)
    | none =>
      rw [selectBand_miss_nil cube name hl] at he
      simp only [promptEvents, List.mem_cons, List.mem_singleton] at he
      rcases he with rfl | rfl | h
      · exact Or.inl ⟨_, rfl⟩
      · exact Or.inr (Or.inl ⟨_, rfl⟩)
      · exact absurd h (List.not_mem_nil e)
  | cons i rest ih =>
    intro name e he
    cases hl : lookupVar cube name with
    | some b =>
      rw [selectBand_found cube name (i :: rest) b hl] at he
      exact absurd he (by simp)
    | none =>
      rw [selectBand_miss_cons cube name i rest hl] at he
      simp only [List.mem_append, List.mem_cons] at he
      rcases he with hpe | rfl | hrec
      · rcases (by simpa [promptEvents] using hpe : _ ∨ _) with rfl | rfl
        · exact Or.inl ⟨_, rfl⟩
        · exact Or.inr (Or.inl ⟨_, rfl⟩)
      · exact Or.inr (Or.inr ⟨_, rfl⟩)
      · exact ih i e hrec

theorem selectBand_resolves (cube : List (String × Band)) :
    ∀ (ins : List String) (name : String),
      (∃ i ∈ ins, (lookupVar cube i).isSome) →
      ∃ n b, (selectBand cube name ins).result = Except.ok (n, b) ∧
        lookupVar cube n = some b := by
  intro ins
  induction ins with
  | nil =>
    intro name h
    obtain ⟨i, hi, _⟩ := h
    exact absurd hi (List.not_mem_nil i)
  | cons i rest ih =>
    intro name h
    cases hl : lookupVar cube name with
    | some b => exact ⟨name, b, by rw [selectBand_found cube name _ b hl], hl⟩
    | none =>
      rw [selectBand_miss_cons cube name i rest hl]
      cases hli : lookupVar cube i with
      | some b => exact ⟨i, b, by rw [selectBand_found cube i _ b hli], hli⟩
      | none =>
        apply ih i
        obtain ⟨k, hk, hks⟩ := h
        rcases List.mem_cons.mp hk with rfl | hk'
        · rw [hli] at hks; exact absurd hks (by simp)
        · exact ⟨k, hk', hks⟩

theorem selectBand_stuck (cube : List (String × Band)) :
    ∀ (ins : List String) (name : String), lookupVar cube name = none →
      (∀ i ∈ ins, lookupVar cube i = none) →
      (selectBand cube name ins).result = Except.error SelErr.eof := by
  intro ins
  induction ins with
  | nil => intro name h _; rw [selectBand_miss_nil cube name h]
  | cons i rest ih =>
    intro name h hall
    rw [selectBand_miss_cons cube name i rest h]
    exact ih i (hall i (List.mem_cons_self i rest)) fun k hk =>
      hall k (List.mem_cons_of_mem i hk)

theorem range_map_getD {α : Type} {β : Type} (l : List α) (d : α) (f : α → β) :
    (List.range l.length).map (fun i => f (l.getD i d)) = l.map f := by
  induction l with
  | nil => rfl
  | cons a t ih =>
    rw [List.length_cons, List.range_succ_eq_map, List.map_cons, List.map_map]
    exact congrArg (f a :: ·) ih

theorem exportEvents_eq_map {G : Type} (clip : List G → Grid → Grid)
    (bandName label : String) (mask : Option (List G)) (ds : Band) :
    exportEvents clip bandName label mask ds =
      ds.steps.map fun s =>
        Event.wrote (exportPath bandName label s.time) (applyMask clip mask s.grid) := by
  unfold exportEvents exportRasterEvent
  exact range_map_getD ds.steps defaultStep
    fun s => Event.wrote (exportPath bandName label s.time) (applyMask clip mask s.grid)

theorem writePaths_append (a b : List Event) :
    writePaths (a ++ b) = writePaths a ++ writePaths b :=
  List.filterMap_append a b _

theorem writeContents_append (a b : List Event) :
    writeContents (a ++ b) = writeContents a ++ writeContents b :=
  List.filterMap_append a b _

theorem writePaths_exportEvents {G : Type} (clip : List G → Grid → Grid)
    (bandName label : String) (mask : Option (List G)) (ds : Band) :
    writePaths (exportEvents clip bandName label mask ds) =
      ds.steps.map fun s => exportPath bandName label s.time := by
  rw [exportEvents_eq_map, writePaths, List.filterMap_map]
  exact List.filterMap_eq_map _ ▸ rfl

theorem writeContents_exportEvents {G : Type} (clip : List G → Grid → Grid)
    (bandName label : String) (mask : Option (List G)) (ds : Band) :
    writeContents (exportEvents clip bandName label mask ds) =
      ds.steps.map fun s => applyMask clip mask s.grid := by
  rw [exportEvents_eq_map, writeContents, List.filterMap_map]
  exact List.filterMap_eq_map _ ▸ rfl

theorem writePaths_selectBand (cube : List (String × Band)) (name : String)
    (ins : List String) :
    writePaths (selectBand cube name ins).events = [] := by
  apply List.filterMap_eq_nil_iff.mpr
  intro e he
  rcases selectBand_events_shape cube ins name e he with ⟨s, rfl⟩ | ⟨ns, rfl⟩ | ⟨s, rfl⟩ <;> rfl

theorem writeContents_selectBand (cube : List (String × Band)) (name : String)
    (ins : List String) :
    writeContents (selectBand cube name ins).events = [] := by
  apply List.filterMap_eq_nil_iff.mpr
  intro e he
  rcases selectBand_events_shape cube ins name e he with ⟨s, rfl⟩ | ⟨ns, rfl⟩ | ⟨s, rfl⟩ <;> rfl

theorem runMain_ok_noshp {G : Type} (toCrs4326 : List G → List G)
    (simplify : ℚ → G → G) (clip : List G → Grid → Grid) (env : Env G)
    (args : Args) (bname : String) (band : Band)
    (hfe : env.fileExists args.netcdf = true)
    (hsel : (selectBand env.cube args.band env.stdin).result = Except.ok (bname, band))
    (hshp : args.shp = none) :
    runMain toCrs4326 simplify clip env args =
      finishRun clip
        ([Event.msg "\n"] ++ [Event.openCube args.netcdf]
          ++ (selectBand env.cube args.band env.stdin).events)
        bname args.timeResLabel none (resampleMean args.freq band) := by
  simp only [runMain, hfe]
  rw [hsel, hshp]
  rfl

theorem runMain_ok_shp {G : Type} (toCrs4326 : List G → List G)
    (simplify : ℚ → G → G) (clip : List G → Grid → Grid) (env : Env G)
    (args : Args) (bname : String) (band : Band) (p : String)
    (rg : ℚ × List G)
    (hfe : env.fileExists args.netcdf = true)
    (hsel : (selectBand env.cube args.band env.stdin).result = Except.ok (bname, band))
    (hshp : args.shp = some p)
    (hbm : buildMask toCrs4326 simplify (resampleMean args.freq band)
        (env.shpContents p) = some rg) :
    runMain toCrs4326 simplify clip env args =
      finishRun clip
        ([Event.msg "\n"] ++ [Event.openCube args.netcdf]
          ++ (selectBand env.cube args.band env.stdin).events
          ++ [Event.msg "Loading and simplifying shapefile...\n"]
          ++ [Event.loadShp p])
        bname args.timeResLabel (some rg) (resampleMean args.freq band) := by
  simp only [runMain, hfe]
  rw [hsel, hshp]
  simp only [hbm]
  rfl

theorem runMain_shp_failed {G : Type} (toCrs4326 : List G → List G)
    (simplify : ℚ → G → G) (clip : List G → Grid → Grid) (env : Env G)
    (args : Args) (bname : String) (band : Band) (p : String)
    (hfe : env.fileExists args.netcdf = true)
    (hsel : (selectBand env.cube args.band env.stdin).result = Except.ok (bname, band))
    (hshp : args.shp = some p)
    (hbm : buildMask toCrs4326 simplify (resampleMean args.freq band)
        (env.shpContents p) = none) :
    runMain toCrs4326 simplify clip env args =
      ⟨[Event.msg "\n"] ++ [Event.openCube args.netcdf]
        ++ (selectBand env.cube args.band env.stdin).events
        ++ [Event.msg "Loading and simplifying shapefile...\n"],
       Outcome.exception, none⟩ := by
  simp only [runMain, hfe]
  rw [hsel, hshp]
  simp only [hbm]
  rfl

theorem selectBand_no_write (cube : List (String × Band)) (name : String)
    (ins : List String) :
    ∀ e ∈ (selectBand cube name ins).events, e.isWrote = false := by
  intro e he
  rcases selectBand_events_shape cube ins name e he with ⟨s, rfl⟩ | ⟨ns, rfl⟩ | ⟨s, rfl⟩ <;> rfl

theorem writePaths_finishRun {G : Type} (clip : List G → Grid → Grid)
    (pre : List Event) (bname label : String) (mi : Option (ℚ × List G))
    (ds : Band) (hpre : writePaths pre = []) :
    writePaths (finishRun clip pre bname label mi ds).events =
      ds.steps.map fun s => exportPath bname label s.time := by
  show writePaths (pre ++ Event.mkdir (EXPORT_DIR ++ "/" ++ bname)
      :: exportEvents clip bname label (mi.map Prod.snd) ds) = _
  rw [writePaths_append, hpre, List.nil_append,
    show Event.mkdir (EXPORT_DIR ++ "/" ++ bname)
        :: exportEvents clip bname label (mi.map Prod.snd) ds =
      [Event.mkdir (EXPORT_DIR ++ "/" ++ bname)]
        ++ exportEvents clip bname label (mi.map Prod.snd) ds from rfl,
    writePaths_append, writePaths_exportEvents]
  rfl

theorem writeContents_finishRun {G : Type} (clip : List G → Grid → Grid)
    (pre : List Event) (bname label : String) (mi : Option (ℚ × List G))
    (ds : Band) (hpre : writeContents pre = []) :
    writeContents (finishRun clip pre bname label mi ds).events =
      ds.steps.map fun s => applyMask clip (mi.map Prod.snd) s.grid := by
  show writeContents (pre ++ Event.mkdir (EXPORT_DIR ++ "/" ++ bname)
      :: exportEvents clip bname label (mi.map Prod.snd) ds) = _
  rw [writeContents_append, hpre, List.nil_append,
    show Event.mkdir (EXPORT_DIR ++ "/" ++ bname)
        :: exportEvents clip bname label (mi.map Prod.snd) ds =
      [Event.mkdir (EXPORT_DIR ++ "/" ++ bname)]
        ++ exportEvents clip bname label (mi.map Prod.snd) ds from rfl,
    writeContents_append, writeContents_exportEvents]
  rfl

theorem writePaths_preamble {G : Type} (env : Env G) (args : Args) :
    writePaths ([Event.msg "\n"] ++ [Event.openCube args.netcdf]
      ++ (selectBand env.cube args.band env.stdin).events) = [] := by
  rw [writePaths_append, writePaths_append, writePaths_selectBand]
  rfl

theorem writeContents_preamble {G : Type} (env : Env G) (args : Args) :
    writeContents ([Event.msg "\n"] ++ [Event.openCube args.netcdf]
      ++ (selectBand env.cube args.band env.stdin).events) = [] := by
  rw [writeContents_append, writeContents_append, writeContents_selectBand]
  rfl

theorem runMain_missing {G : Type} (toCrs4326 : List G → List G)
    (simplify : ℚ → G → G) (clip : List G → Grid → Grid) (env : Env G)
    (args : Args) (h : env.fileExists args.netcdf = false) :
    runMain toCrs4326 simplify clip env args =
      ⟨[Event.msg "\n",
        Event.msg ("The file " ++ args.netcdf ++ " does not exist")],
       Outcome.exitCode 1, none⟩ := by
  simp [runMain, h]

theorem runMain_selerr {G : Type} (toCrs4326 : List G → List G)
    (simplify : ℚ → G → G) (clip : List G → Grid → Grid) (env : Env G)
    (args : Args) (e : SelErr)
    (hfe : env.fileExists args.netcdf = true)
    (herr : (selectBand env.cube args.band env.stdin).result = Except.error e) :
    runMain toCrs4326 simplify clip env args =
      ⟨[Event.msg "\n"] ++ [Event.openCube args.netcdf]
        ++ (selectBand env.cube args.band env.stdin).events,
       Outcome.exception, none⟩ := by
  simp only [runMain, hfe]
  rw [herr]
  simp

theorem maskResolution_eq_none (b : Band)
    (h : b.xs.length < 2 ∨ b.ys.length < 2) : maskResolution b = none := by
  rcases hx : b.xs with _ | ⟨x0, _ | ⟨x1, xt⟩⟩ <;>
    rcases hy : b.ys with _ | ⟨y0, _ | ⟨y1, yt⟩⟩ <;>
      simp only [maskResolution, hx, hy] <;>
        (rw [hx, hy] at h; simp only [List.length_cons] at h; omega)

theorem makedirs_mem (dirs : List String) (d : String) (h : d ∈ dirs) :
    makedirsExistOk dirs d = (dirs, true) := by
  unfold makedirsExistOk
  rw [if_pos h]

theorem makedirs_self_mem (dirs : List String) (d : String) :
    d ∈ (makedirsExistOk dirs d).1 := by
  simp only [makedirsExistOk]
  by_cases h : d ∈ dirs
  · rw [if_pos h]; exact h
  · rw [if_neg h]; exact List.mem_append_right _ (List.mem_singleton.mpr rfl)

/-! ## Claims -/

/-- Claim C1: for every band and every time bucket produced by the
resampler, the resampled value at that bucket is the arithmetic mean, taken
across the time axis only, of the source time-steps whose timestamp falls
in the bucket: the spatial axes are untouched, each cell is the mean of the
corresponding source cells with missing values skipped (the library default
for `skipna=None`), and a cell missing in the whole bucket stays missing
rather than raising. -/
theorem resampled_step_is_bucket_mean (freq : Nat) (b : Band) (t : Nat) (g : Grid)
    (hmem : TimeStep.mk t g ∈ (resampleMean freq b).steps) :
    (resampleMean freq b).xs = b.xs ∧ (resampleMean freq b).ys = b.ys ∧
    (∀ i j, i < b.ys.length → j < b.xs.length →
      cellAt g i j =
        cellMean ((b.steps.filter fun s => bucketOf freq s.time == t).map
          fun s => cellAt s.grid i j)) ∧
    (∀ i j, i < b.ys.length → j < b.xs.length →
      (∀ s ∈ b.steps.filter (fun s => bucketOf freq s.time == t),
        cellAt s.grid i j = none) →
      cellAt g i j = none) := by
  have hg := mem_resampleSteps freq b.ys.length b.xs.length b.steps t g hmem
  have hcell : ∀ i j, i < b.ys.length → j < b.xs.length →
      cellAt g i j =
        cellMean ((b.steps.filter fun s => bucketOf freq s.time == t).map
          fun s => cellAt s.grid i j) := by
    intro i j hi hj
    rw [hg, cellAt_gridMean _ _ _ i j hi hj, List.map_map]
    rfl
  refine ⟨rfl, rfl, hcell, ?_⟩
  intro i j hi hj hall
  rw [hcell i j hi hj]
  apply cellMean_eq_none
  intro c hc
  obtain ⟨s, hs, rfl⟩ := List.mem_map.mp hc
  exact hall s hs

/-- Witness for C1: the daily resample of `bandW` contains the bucket at
time 0 with grid `gridW`, and the conclusion holds there. -/
theorem resampled_step_is_bucket_mean_witness :
    (TimeStep.mk 0 gridW ∈ (resampleMean 1440 bandW).steps) ∧
    ((resampleMean 1440 bandW).xs = bandW.xs ∧
     (resampleMean 1440 bandW).ys = bandW.ys ∧
     (∀ i j, i < bandW.ys.length → j < bandW.xs.length →
       cellAt gridW i j =
         cellMean ((bandW.steps.filter fun s => bucketOf 1440 s.time == 0).map
           fun s => cellAt s.grid i j)) ∧
     (∀ i j, i < bandW.ys.length → j < bandW.xs.length →
       (∀ s ∈ bandW.steps.filter (fun s => bucketOf 1440 s.time == 0),
         cellAt s.grid i j = none) →
       cellAt gridW i j = none)) := by
  have hmem : TimeStep.mk 0 gridW ∈ (resampleMean 1440 bandW).steps := by
    have hsteps : (resampleMean 1440 bandW).steps = [⟨0, gridW⟩] := by
      simp [resampleMean, resampleSteps, bandW, gridW, bucketOf, bucketStarts,
        minTime, maxTime, gridMean, cellMean, cellAt, List.range_succ]
      norm_num
    rw [hsteps]
    exact List.mem_singleton.mpr rfl
  exact ⟨hmem, resampled_step_is_bucket_mean 1440 bandW 0 gridW hmem⟩

/-- Claim C4: when the input path does not exist, `main` reports the
missing file and exits with status 1 before any processing: no cube is
opened, no output directory is created, and no file is written. -/
theorem missing_input_exits_early {G : Type} (toCrs4326 : List G → List G)
    (simplify : ℚ → G → G) (clip : List G → Grid → Grid)
    (env : Env G) (args : Args)
    (h : env.fileExists args.netcdf = false) :
    runMain toCrs4326 simplify clip env args =
      ⟨[Event.msg "\n",
        Event.msg ("The file " ++ args.netcdf ++ " does not exist")],
       Outcome.exitCode 1, none⟩ ∧
    (∀ p, Event.openCube p ∉ (runMain toCrs4326 simplify clip env args).events) ∧
    (∀ d, Event.mkdir d ∉ (runMain toCrs4326 simplify clip env args).events) ∧
    writePaths (runMain toCrs4326 simplify clip env args).events = [] := by
  have hrun : runMain toCrs4326 simplify clip env args =
      ⟨[Event.msg "\n",
        Event.msg ("The file " ++ args.netcdf ++ " does not exist")],
       Outcome.exitCode 1, none⟩ := by
    simp [runMain, h]
  refine ⟨hrun, ?_, ?_, ?_⟩ <;> rw [hrun] <;> simp [writePaths]

/-- Witness for C4: a run against an environment with no existing paths
exits with status 1 having only printed the two messages. -/
theorem missing_input_exits_early_witness :
    envMissing.fileExists argsX.netcdf = false ∧
    (runMain idCrs idSimplify idClip envMissing argsX =
      ⟨[Event.msg "\n",
        Event.msg ("The file " ++ argsX.netcdf ++ " does not exist")],
       Outcome.exitCode 1, none⟩ ∧
     (∀ p, Event.openCube p ∉ (runMain idCrs idSimplify idClip envMissing argsX).events) ∧
     (∀ d, Event.mkdir d ∉ (runMain idCrs idSimplify idClip envMissing argsX).events) ∧
     writePaths (runMain idCrs idSimplify idClip envMissing argsX).events = []) :=
  ⟨rfl, missing_input_exits_early idCrs idSimplify idClip envMissing argsX rfl⟩

/-- Claim C5: the band selector does not hard-fail on an unknown name: a
name that exists is returned immediately, with no prompting and no input
consumed; an unknown name triggers the recovery loop, which lists all
available variable names and reprompts until a queued corrected name
resolves, then returns that band from the same already-open cube (the loop
emits no cube-open event). -/
theorem band_selector_recovers (cube : List (String × Band)) (name : String)
    (ins : List String) :
    (∀ b, lookupVar cube name = some b →
      selectBand cube name ins = ⟨[], ins, Except.ok (name, b)⟩) ∧
    (lookupVar cube name = none →
     (∃ i ∈ ins, (lookupVar cube i).isSome) →
     ∃ n b, (selectBand cube name ins).result = Except.ok (n, b) ∧
       lookupVar cube n = some b ∧
       Event.listVars (varNames cube) ∈ (selectBand cube name ins).events ∧
       (∀ p, Event.openCube p ∉ (selectBand cube name ins).events)) := by
  constructor
  · intro b hb
    exact selectBand_found cube name ins b hb
  · intro hmiss hres
    obtain ⟨n, b, hok, hn⟩ := selectBand_resolves cube ins name hres
    refine ⟨n, b, hok, hn, ?_, ?_⟩
    · cases ins with
      | nil =>
        rw [selectBand_miss_nil cube name hmiss] at hok
        exact absurd hok (by simp)
      | cons i rest =>
        rw [selectBand_miss_cons cube name i rest hmiss]
        exact List.mem_append_left _ (by simp [promptEvents])
    · intro p hp
      rcases selectBand_events_shape cube ins name _ hp with ⟨s, hs⟩ | ⟨ns, hs⟩ | ⟨s, hs⟩ <;>
        exact absurd hs (by simp)

/-- Witness for C5: on a cube holding only the variable `aod`, requesting
`bad` with `aod` queued on interactive input recovers and resolves. -/
theorem band_selector_recovers_witness :
    lookupVar envX.cube "bad" = none ∧
    ("aod" ∈ ["aod"] ∧ (lookupVar envX.cube "aod").isSome) ∧
    (∃ n b, (selectBand envX.cube "bad" ["aod"]).result = Except.ok (n, b) ∧
      lookupVar envX.cube n = some b ∧
      Event.listVars (varNames envX.cube) ∈ (selectBand envX.cube "bad" ["aod"]).events ∧
      (∀ p, Event.openCube p ∉ (selectBand envX.cube "bad" ["aod"]).events)) :=
  ⟨rfl, ⟨by simp, by rw [show lookupVar envX.cube "aod" = some bandX from rfl]; rfl⟩,
   (band_selector_recovers envX.cube "bad" ["aod"]).2 rfl
     ⟨"aod", by simp, by rw [show lookupVar envX.cube "aod" = some bandX from rfl]; rfl⟩⟩

/-- Claim C10: the recovery loop retries only on the missing-key failure of
indexing the cube by name: a name that resolves is returned at once, and
when every queued corrected name also misses, the read past the end of the
interactive input is not caught — the selection ends in an error and `main`
ends with an uncaught exception instead of completing. -/
theorem band_selector_aborts_on_input_failure (cube : List (String × Band))
    (name : String) (ins : List String) :
    (∀ b, lookupVar cube name = some b →
      (selectBand cube name ins).result = Except.ok (name, b)) ∧
    (lookupVar cube name = none → (∀ i ∈ ins, lookupVar cube i = none) →
      (selectBand cube name ins).result = Except.error SelErr.eof) ∧
    (∀ (G : Type) (toCrs4326 : List G → List G) (simplify : ℚ → G → G)
       (clip : List G → Grid → Grid) (env : Env G) (args : Args),
      env.fileExists args.netcdf = true →
      env.cube = cube → args.band = name → env.stdin = ins →
      (selectBand cube name ins).result = Except.error SelErr.eof →
      (runMain toCrs4326 simplify clip env args).outcome = Outcome.exception) := by
  refine ⟨?_, selectBand_stuck cube ins name, ?_⟩
  · intro b hb
    rw [selectBand_found cube name ins b hb]
  · intro G toCrs4326 simplify clip env args hfe hc hb hs herr
    subst hc; subst hb; subst hs
    simp only [runMain, hfe]
    rw [herr]
    simp

/-- Witness for C10: against a cube holding only `aod`, requesting `bad`
with no queued input aborts the run with an uncaught exception. -/
theorem band_selector_aborts_on_input_failure_witness :
    lookupVar envEof.cube "bad" = none ∧
    (selectBand envEof.cube "bad" [] ).result = Except.error SelErr.eof ∧
    (runMain idCrs idSimplify idClip envEof argsBad).outcome = Outcome.exception := by
  have h1 : lookupVar envEof.cube "bad" = none := rfl
  have h2 : (selectBand envEof.cube "bad" []).result = Except.error SelErr.eof :=
    (band_selector_aborts_on_input_failure envEof.cube "bad" []).2.1 h1
      (by intro i hi; exact absurd hi (List.not_mem_nil i))
  exact ⟨h1, h2,
    (band_selector_aborts_on_input_failure envEof.cube "bad" []).2.2 Unit idCrs
      idSimplify idClip envEof argsBad rfl rfl rfl rfl h2⟩

/-- Claim C7: without a shapefile path no masking occurs — every exported
slice is the full, unclipped resampled slice at its time index; with a
shapefile, every exported slice is the clip, by the loaded geometries
reprojected to EPSG:4326 (and simplified), of the slice, applied before
writing. -/
theorem export_clips_iff_shapefile {G : Type} (toCrs4326 : List G → List G)
    (simplify : ℚ → G → G) (clip : List G → Grid → Grid) (env : Env G)
    (args : Args) (bname : String) (band : Band)
    (hfe : env.fileExists args.netcdf = true)
    (hsel : (selectBand env.cube args.band env.stdin).result = Except.ok (bname, band)) :
    (args.shp = none →
      writeContents (runMain toCrs4326 simplify clip env args).events =
        (resampleMean args.freq band).steps.map TimeStep.grid) ∧
    (∀ p r maskGs, args.shp = some p →
      buildMask toCrs4326 simplify (resampleMean args.freq band)
          (env.shpContents p) = some (r, maskGs) →
      writeContents (runMain toCrs4326 simplify clip env args).events =
        (resampleMean args.freq band).steps.map fun s => clip maskGs s.grid) := by
  constructor
  · intro hshp
    rw [runMain_ok_noshp toCrs4326 simplify clip env args bname band hfe hsel hshp,
      writeContents_finishRun _ _ _ _ _ _ (writeContents_preamble env args)]
    rfl
  · intro p r maskGs hshp hbm
    rw [runMain_ok_shp toCrs4326 simplify clip env args bname band p (r, maskGs)
      hfe hsel hshp hbm]
    rw [writeContents_finishRun]
    · rfl
    · rw [writeContents_append, writeContents_append, writeContents_preamble env args]
      rfl

/-- Witness for C7: running on `envX` without a shapefile writes exactly
the unclipped resampled slices. -/
theorem export_clips_iff_shapefile_witness :
    envX.fileExists argsX.netcdf = true ∧
    (selectBand envX.cube argsX.band envX.stdin).result = Except.ok ("aod", bandX) ∧
    argsX.shp = none ∧
    writeContents (runMain idCrs idSimplify idClip envX argsX).events =
      (resampleMean argsX.freq bandX).steps.map TimeStep.grid :=
  ⟨rfl, rfl, rfl,
   (export_clips_iff_shapefile idCrs idSimplify idClip envX argsX "aod" bandX
     rfl rfl).1 rfl⟩

/-- Counterexample to C2 as stated: on a valid input (existing netCDF
path, resolvable band `aod`) with time resolution `12H`, the run `runX`
dispatches two export tasks — one per resampled bucket — but both target
the same path, so only one distinct file is written while the resampled
time axis has length 2. -/
theorem task_count_eq_time_axis_cex :
    (writePaths runX.events).length = 2 ∧
    (resampleMean argsX.freq bandX).steps.length = 2 ∧
    ((writePaths runX.events).dedup).length = 1 :=
  ⟨by decide, by decide, by decide⟩

/-- Claim C2 (amended): for every valid input (existing netCDF file,
resolvable band name, mask step succeeding if requested) the number of
export tasks dispatched equals the length of the resampled series' time
axis; the number of distinct files written also equals it whenever the
bucket timestamps fall on pairwise distinct calendar days (as with daily
or coarser resolutions), but is smaller when a sub-daily resolution puts
two buckets on the same day, since their tasks then target the same
path. -/
theorem task_count_eq_time_axis {G : Type} (toCrs4326 : List G → List G)
    (simplify : ℚ → G → G) (clip : List G → Grid → Grid) (env : Env G)
    (args : Args) (bname : String) (band : Band)
    (hfe : env.fileExists args.netcdf = true)
    (hsel : (selectBand env.cube args.band env.stdin).result = Except.ok (bname, band))
    (hmask : args.shp = none ∨ ∃ p rg, args.shp = some p ∧
      buildMask toCrs4326 simplify (resampleMean args.freq band)
        (env.shpContents p) = some rg) :
    (writePaths (runMain toCrs4326 simplify clip env args).events).length =
      (resampleMean args.freq band).steps.length ∧
    (((resampleMean args.freq band).steps.map fun s => dayOf s.time).Nodup →
      ((writePaths (runMain toCrs4326 simplify clip env args).events).dedup).length =
        (resampleMean args.freq band).steps.length) := by
  have hwp : writePaths (runMain toCrs4326 simplify clip env args).events =
      (resampleMean args.freq band).steps.map
        fun s => exportPath bname args.timeResLabel s.time := by
    rcases hmask with hshp | ⟨p, rg, hshp, hbm⟩
    · rw [runMain_ok_noshp toCrs4326 simplify clip env args bname band hfe hsel hshp,
        writePaths_finishRun _ _ _ _ _ _ (writePaths_preamble env args)]
    · rw [runMain_ok_shp toCrs4326 simplify clip env args bname band p rg hfe hsel
        hshp hbm]
      rw [writePaths_finishRun]
      rw [writePaths_append, writePaths_append, writePaths_preamble env args]
      rfl
  constructor
  · rw [hwp, List.length_map]
  · intro hnd
    have hcomp : (resampleMean args.freq band).steps.map
        (fun s => exportPath bname args.timeResLabel s.time) =
        ((resampleMean args.freq band).steps.map fun s => dayOf s.time).map
          fun d => ExportPath.mk EXPORT_DIR bname args.timeResLabel d := by
      rw [List.map_map]
      rfl
    have hpn : ((resampleMean args.freq band).steps.map
        fun s => exportPath bname args.timeResLabel s.time).Nodup := by
      rw [hcomp]
      exact hnd.map fun a b hab => congrArg ExportPath.day hab
    rw [hwp, List.dedup_eq_self.mpr hpn, List.length_map]

/-- Witness for C2 (amended): on the daily run `runD` both counts equal
the two resampled buckets. -/
theorem task_count_eq_time_axis_witness :
    envD.fileExists argsD.netcdf = true ∧
    (selectBand envD.cube argsD.band envD.stdin).result = Except.ok ("aod", bandD) ∧
    (((resampleMean argsD.freq bandD).steps.map fun s => dayOf s.time).Nodup) ∧
    (writePaths runD.events).length = (resampleMean argsD.freq bandD).steps.length ∧
    ((writePaths runD.events).dedup).length =
      (resampleMean argsD.freq bandD).steps.length := by
  have h := task_count_eq_time_axis idCrs idSimplify idClip envD argsD "aod" bandD
    rfl rfl (Or.inl rfl)
  exact ⟨rfl, rfl, by decide, h.1, h.2 (by decide)⟩

/-- Counterexample to C3 as stated: in the `12H` run `runX`, the tasks at
time indices 0 and 1 have distinct bucket timestamps (0 and 720 minutes)
yet produce the same output path, because the filename keeps only the
`%Y-%m-%d` date of the bucket timestamp. -/
theorem distinct_indices_distinct_paths_cex :
    (writePaths runX.events).length = 2 ∧
    (writePaths runX.events).getD 0 ⟨"", "", "", 0⟩ =
      (writePaths runX.events).getD 1 ⟨"", "", "", 0⟩ ∧
    ((resampleMean argsX.freq bandX).steps.getD 0 defaultStep).time ≠
      ((resampleMean argsX.freq bandX).steps.getD 1 defaultStep).time :=
  ⟨by decide, by decide, by decide⟩

/-- Claim C3 (amended): every export task's output path is a deterministic
function of the band name, the time-resolution label and the calendar day
of the bucket timestamp — within a run, the task paths are exactly
`exportPath` of the resampled timestamps, in order — and two time indices
produce distinct output paths whenever their bucket timestamps fall on
distinct calendar days; bucket timestamps sharing a day collide. -/
theorem paths_deterministic_daywise {G : Type} (clip : List G → Grid → Grid)
    (bname label : String) (mask : Option (List G)) (ds : Band) (t1 t2 : Nat)
    (h : dayOf t1 ≠ dayOf t2) :
    writePaths (exportEvents clip bname label mask ds) =
      ds.steps.map (fun s => exportPath bname label s.time) ∧
    exportPath bname label t1 = ⟨EXPORT_DIR, bname, label, dayOf t1⟩ ∧
    exportPath bname label t1 ≠ exportPath bname label t2 :=
  ⟨writePaths_exportEvents clip bname label mask ds, rfl,
   fun hc => h (congrArg ExportPath.day hc)⟩

/-- Witness for C3 (amended) at timestamps one day apart. -/
theorem paths_deterministic_daywise_witness :
    dayOf 0 ≠ dayOf 1440 ∧
    (writePaths (exportEvents idClip "aod" "1D" none bandD) =
      bandD.steps.map (fun s => exportPath "aod" "1D" s.time) ∧
     exportPath "aod" "1D" 0 = ⟨EXPORT_DIR, "aod", "1D", dayOf 0⟩ ∧
     exportPath "aod" "1D" 0 ≠ exportPath "aod" "1D" 1440) :=
  ⟨by decide, paths_deterministic_daywise idClip "aod" "1D" none bandD 0 1440 (by decide)⟩

/-- Claim C6: when a shapefile is given, the simplification tolerance is
half of the smaller of the two absolute spatial-axis step sizes, computed
once from the first two grid coordinates of each axis of the resampled
series, and that single tolerance is applied uniformly (by mapping the
library simplification at that tolerance) over every reprojected mask
geometry; the mask the run records is exactly this. -/
theorem mask_tolerance_uniform {G : Type} (toCrs4326 : List G → List G)
    (simplify : ℚ → G → G) (clip : List G → Grid → Grid) (env : Env G)
    (args : Args) (bname : String) (band : Band) (p : String)
    (x0 x1 : ℚ) (xt : List ℚ) (y0 y1 : ℚ) (yt : List ℚ)
    (hfe : env.fileExists args.netcdf = true)
    (hsel : (selectBand env.cube args.band env.stdin).result = Except.ok (bname, band))
    (hshp : args.shp = some p)
    (hx : (resampleMean args.freq band).xs = x0 :: x1 :: xt)
    (hy : (resampleMean args.freq band).ys = y0 :: y1 :: yt) :
    buildMask toCrs4326 simplify (resampleMean args.freq band) (env.shpContents p) =
      some (min |x1 - x0| |y1 - y0| / 2,
        (toCrs4326 (env.shpContents p)).map
          (simplify (min |x1 - x0| |y1 - y0| / 2))) ∧
    (runMain toCrs4326 simplify clip env args).mask =
      some (min |x1 - x0| |y1 - y0| / 2,
        (toCrs4326 (env.shpContents p)).map
          (simplify (min |x1 - x0| |y1 - y0| / 2))) := by
  have hres : maskResolution (resampleMean args.freq band) =
      some (min |x1 - x0| |y1 - y0| / 2) := by
    simp only [maskResolution, hx, hy]
  have hbm : buildMask toCrs4326 simplify (resampleMean args.freq band)
      (env.shpContents p) =
      some (min |x1 - x0| |y1 - y0| / 2,
        (toCrs4326 (env.shpContents p)).map
          (simplify (min |x1 - x0| |y1 - y0| / 2))) := by
    unfold buildMask
    rw [hres]
  refine ⟨hbm, ?_⟩
  rw [runMain_ok_shp toCrs4326 simplify clip env args bname band p _ hfe hsel hshp hbm]
  rfl

/-- Witness for C6 on `envShp`: both spatial steps are 1, so the tolerance
is 1/2, and the mask is the uniform simplification of both geometries. -/
theorem mask_tolerance_uniform_witness :
    envShp.fileExists argsShp.netcdf = true ∧
    (selectBand envShp.cube argsShp.band envShp.stdin).result =
      Except.ok ("aod", bandW) ∧
    argsShp.shp = some "mask.shp" ∧
    (resampleMean argsShp.freq bandW).xs = 0 :: 1 :: [] ∧
    (resampleMean argsShp.freq bandW).ys = 0 :: 1 :: [] ∧
    (buildMask natCrs natSimplify (resampleMean argsShp.freq bandW)
        (envShp.shpContents "mask.shp") =
      some (min |1 - 0| |1 - 0| / 2,
        (natCrs (envShp.shpContents "mask.shp")).map
          (natSimplify (min |1 - 0| |1 - 0| / 2))) ∧
     (runMain natCrs natSimplify natClip envShp argsShp).mask =
      some (min |1 - 0| |1 - 0| / 2,
        (natCrs (envShp.shpContents "mask.shp")).map
          (natSimplify (min |1 - 0| |1 - 0| / 2)))) :=
  ⟨rfl, rfl, rfl, rfl, rfl,
   mask_tolerance_uniform natCrs natSimplify natClip envShp argsShp "aod" bandW
     "mask.shp" 0 1 [] 0 1 [] rfl rfl rfl rfl rfl⟩

/-- Claim C9: the mask-tolerance computation indexes the second coordinate
of each spatial axis, so when a shapefile is requested and the resampled
series has a spatial axis with fewer than two coordinates, the run aborts
with an uncaught exception before any geometry is loaded: no
shapefile-load event, no directory creation, no file written. -/
theorem single_coordinate_axis_aborts {G : Type} (toCrs4326 : List G → List G)
    (simplify : ℚ → G → G) (clip : List G → Grid → Grid) (env : Env G)
    (args : Args) (bname : String) (band : Band) (p : String)
    (hfe : env.fileExists args.netcdf = true)
    (hsel : (selectBand env.cube args.band env.stdin).result = Except.ok (bname, band))
    (hshp : args.shp = some p)
    (hax : (resampleMean args.freq band).xs.length < 2 ∨
      (resampleMean args.freq band).ys.length < 2) :
    (runMain toCrs4326 simplify clip env args).outcome = Outcome.exception ∧
    Event.loadShp p ∉ (runMain toCrs4326 simplify clip env args).events ∧
    (∀ d, Event.mkdir d ∉ (runMain toCrs4326 simplify clip env args).events) ∧
    writePaths (runMain toCrs4326 simplify clip env args).events = [] := by
  have hbm : buildMask toCrs4326 simplify (resampleMean args.freq band)
      (env.shpContents p) = none := by
    unfold buildMask
    rw [maskResolution_eq_none _ hax]
  have hrun := runMain_shp_failed toCrs4326 simplify clip env args bname band p
    hfe hsel hshp hbm
  refine ⟨by rw [hrun], ?_, ?_, ?_⟩
  · rw [hrun]
    intro hmem
    simp only [List.mem_append, List.mem_singleton] at hmem
    rcases hmem with ((h | h) | h) | h
    · exact Event.noConfusion h
    · exact Event.noConfusion h
    · rcases selectBand_events_shape env.cube env.stdin args.band _ h with
        ⟨s, hs⟩ | ⟨ns, hs⟩ | ⟨s, hs⟩ <;> exact Event.noConfusion hs
    · exact Event.noConfusion h
  · intro d
    rw [hrun]
    intro hmem
    simp only [List.mem_append, List.mem_singleton] at hmem
    rcases hmem with ((h | h) | h) | h
    · exact Event.noConfusion h
    · exact Event.noConfusion h
    · rcases selectBand_events_shape env.cube env.stdin args.band _ h with
        ⟨s, hs⟩ | ⟨ns, hs⟩ | ⟨s, hs⟩ <;> exact Event.noConfusion hs
    · exact Event.noConfusion h
  · rw [hrun]
    show writePaths ([Event.msg "\n"] ++ [Event.openCube args.netcdf]
      ++ (selectBand env.cube args.band env.stdin).events
      ++ [Event.msg "Loading and simplifying shapefile...\n"]) = []
    rw [writePaths_append, writePaths_append, writePaths_append,
      writePaths_selectBand]
    rfl

/-- Witness for C9: `bandX` has single-coordinate spatial axes, so its
masked run aborts before loading the shapefile. -/
theorem single_coordinate_axis_aborts_witness :
    envShpBad.fileExists argsShpBad.netcdf = true ∧
    (selectBand envShpBad.cube argsShpBad.band envShpBad.stdin).result =
      Except.ok ("aod", bandX) ∧
    argsShpBad.shp = some "mask.shp" ∧
    (resampleMean argsShpBad.freq bandX).xs.length < 2 ∧
    ((runMain idCrs idSimplify idClip envShpBad argsShpBad).outcome =
      Outcome.exception ∧
     Event.loadShp "mask.shp" ∉
      (runMain idCrs idSimplify idClip envShpBad argsShpBad).events ∧
     (∀ d, Event.mkdir d ∉
      (runMain idCrs idSimplify idClip envShpBad argsShpBad).events) ∧
     writePaths (runMain idCrs idSimplify idClip envShpBad argsShpBad).events = []) :=
  ⟨rfl, rfl, rfl, by decide,
   single_coordinate_axis_aborts idCrs idSimplify idClip envShpBad argsShpBad
     "aod" bandX "mask.shp" rfl rfl rfl (Or.inl (by decide))⟩

/-- Claim C8: `makedirs(..., exist_ok=True)` is idempotent and never
fails — creating the per-band directory when it already exists succeeds
and returns the file system unchanged, so a second identical run does not
fail on the pre-existing directory — and in every normally-completing run
the directory-creation event precedes every export event: the trace splits
as non-export events, then the mkdir, then only export events. -/
theorem outdir_creation_idempotent :
    (∀ dirs d, (makedirsExistOk dirs d).2 = true ∧
      d ∈ (makedirsExistOk dirs d).1 ∧
      makedirsExistOk (makedirsExistOk dirs d).1 d = ((makedirsExistOk dirs d).1, true)) ∧
    (∀ (G : Type) (toCrs4326 : List G → List G) (simplify : ℚ → G → G)
       (clip : List G → Grid → Grid) (env : Env G) (args : Args),
      (runMain toCrs4326 simplify clip env args).outcome = Outcome.normal →
      ∃ pre bname rest, (runMain toCrs4326 simplify clip env args).events =
        pre ++ Event.mkdir (EXPORT_DIR ++ "/" ++ bname) :: rest ∧
        (∀ e ∈ pre, e.isWrote = false) ∧ (∀ e ∈ rest, e.isWrote = true)) := by
  constructor
  · intro dirs d
    exact ⟨rfl, makedirs_self_mem dirs d,
      makedirs_mem _ d (makedirs_self_mem dirs d)⟩
  · intro G toCrs4326 simplify clip env args hout
    cases hfe : env.fileExists args.netcdf with
    | false =>
      rw [runMain_missing toCrs4326 simplify clip env args hfe] at hout
      exact Outcome.noConfusion hout
    | true =>
      cases hsel : (selectBand env.cube args.band env.stdin).result with
      | error e =>
        rw [runMain_selerr toCrs4326 simplify clip env args e hfe hsel] at hout
        exact Outcome.noConfusion hout
      | ok nb =>
        obtain ⟨bname, band⟩ := nb
        cases hshp : args.shp with
        | none =>
          rw [runMain_ok_noshp toCrs4326 simplify clip env args bname band hfe
            hsel hshp]
          refine ⟨[Event.msg "\n"] ++ [Event.openCube args.netcdf]
              ++ (selectBand env.cube args.band env.stdin).events, bname,
            exportEvents clip bname args.timeResLabel none
              (resampleMean args.freq band), rfl, ?_, ?_⟩
          · intro e he
            simp only [List.mem_append, List.mem_singleton] at he
            rcases he with (h | h) | h
            · subst h; rfl
            · subst h; rfl
            · exact selectBand_no_write env.cube args.band env.stdin e h
          · intro e he
            rw [exportEvents_eq_map] at he
            obtain ⟨s, _, rfl⟩ := List.mem_map.mp he
            rfl
        | some p =>
          cases hbm : buildMask toCrs4326 simplify (resampleMean args.freq band)
              (env.shpContents p) with
          | none =>
            rw [runMain_shp_failed toCrs4326 simplify clip env args bname band p
              hfe hsel hshp hbm] at hout
            exact Outcome.noConfusion hout
          | some rg =>
            rw [runMain_ok_shp toCrs4326 simplify clip env args bname band p rg
              hfe hsel hshp hbm]
            refine ⟨[Event.msg "\n"] ++ [Event.openCube args.netcdf]
                ++ (selectBand env.cube args.band env.stdin).events
                ++ [Event.msg "Loading and simplifying shapefile...\n"]
                ++ [Event.loadShp p], bname,
              exportEvents clip bname args.timeResLabel ((some rg).map Prod.snd)
                (resampleMean args.freq band), rfl, ?_, ?_⟩
            · intro e he
              simp only [List.mem_append, List.mem_singleton] at he
              rcases he with (((h | h) | h) | h) | h
              · subst h; rfl
              · subst h; rfl
              · exact selectBand_no_write env.cube args.band env.stdin e h
              · subst h; rfl
              · subst h; rfl
            · intro e he
              rw [exportEvents_eq_map] at he
              obtain ⟨s, _, rfl⟩ := List.mem_map.mp he
              rfl

/-- Witness for C8: concrete idempotent creation, and the normal run
`runX` has its mkdir before all of its (only-export) tail events. -/
theorem outdir_creation_idempotent_witness :
    ((makedirsExistOk ["a"] "b").2 = true ∧
     "b" ∈ (makedirsExistOk ["a"] "b").1 ∧
     makedirsExistOk (makedirsExistOk ["a"] "b").1 "b" =
       ((makedirsExistOk ["a"] "b").1, true)) ∧
    runX.outcome = Outcome.normal ∧
    (∃ pre bname rest, runX.events =
      pre ++ Event.mkdir (EXPORT_DIR ++ "/" ++ bname) :: rest ∧
      (∀ e ∈ pre, e.isWrote = false) ∧ (∀ e ∈ rest, e.isWrote = true)) :=
  ⟨outdir_creation_idempotent.1 ["a"] "b", by decide,
   outdir_creation_idempotent.2 Unit idCrs idSimplify idClip envX argsX (by decide)⟩

end S5P
